import Mathlib

/-!
Verification of the `math_parser` repository (files `symbols.py`, `parser.py`)
against its natural-language specification.

The Python source is shallowly embedded below:

* Python exceptions are modelled by the inductive type `PyErr` and fallible
  code returns `Except PyErr _`.
* The mutable class-level `symbol_list` attributes are modelled by the record
  `RegState`, with one field per distinct Python list object.  `Symbol`,
  `Constant`, `Variable` and `Operator` do not define their own
  `symbol_list`, so they all share the single list introduced on `Symbol`
  (field `root`); every other class defines its own list literal.
* Instance construction (`__init__`) is modelled by explicit state-passing
  functions `mkConstant`, `mkVariable`, `mkAdd`, ... over `RegState`.
* Expression trees (fully constructed instances) are the inductive type
  `Expr`; each `Operator` instance stores its two operands `a` and `b`,
  where `b` is `Option Expr` because unary operators store Python `None`
  in `self.b`.
* Evaluation (`__call__`) is `eval`; Python numbers are idealized as real
  numbers, so `/`, `%`, `**`, `math.ceil`, `math.floor` get their exact
  mathematical semantics rather than IEEE-754 rounding.
-/

namespace Symbols

/-- Python exceptions raised (or raisable) by the source. -/
inductive PyErr where
  /-- Python `raise ValueError(msg)` written explicitly in the source. -/
  | valueError (msg : String)
  /-- A `TypeError` raised by the Python runtime for an unsupported
      operand type (e.g. `None + 1`, `None < 0`, `math.ceil(None)`). -/
  | typeError
  /-- The `TypeError` raised when calling a non-callable object, i.e.
      evaluating `self.b(...)` when `self.b` is `None`. -/
  | notCallable
  /-- The native `ZeroDivisionError` raised by the `%` operator. -/
  | zeroDivisionError
  /-- Python `raise NotImplementedError(...)` in `Symbol.__call__`. -/
  | notImplementedError
deriving DecidableEq

/-! ## Python string primitives

`str.strip`, `str.replace`, `in` (substring test), `str.rstrip`, modelled on
`List Char`.  `pyReplaceAux` uses an explicit fuel argument so that the
definition is structurally recursive (hence kernel-reducible); fuel
`s.length` is always sufficient because every step consumes at least one
character of the remaining input.
-/

/-- One pass of Python `s.replace(pat, rep)` (all non-overlapping
occurrences, scanning left to right, never rescanning the replacement).
The `fuel` argument only forces termination; it is never exhausted when
`fuel ≥ s.length`.  (Python's special behaviour for an empty pattern is
not modelled; every pattern used in the source is non-empty.) -/
def pyReplaceAux (pat rep : List Char) : Nat → List Char → List Char
  | 0, s => s
  | _ + 1, [] => []
  | fuel + 1, c :: rest =>
    if pat ≠ [] ∧ pat.isPrefixOf (c :: rest) then
      rep ++ pyReplaceAux pat rep fuel ((c :: rest).drop pat.length)
    else
      c :: pyReplaceAux pat rep fuel rest

/-- Python `s.replace(pat, rep)` on strings. -/
def pyReplace (s pat rep : String) : String :=
  ⟨pyReplaceAux pat.data rep.data s.data.length s.data⟩

/-- Python `pat in s` (substring containment). -/
def pyContains (pat : List Char) : List Char → Bool
  | [] => pat.isEmpty
  | c :: rest => pat.isPrefixOf (c :: rest) || pyContains pat rest

/-- Python `pat in s` on strings. -/
def pyContainsS (s pat : String) : Bool :=
  pyContains pat.data s.data

/-- Python `s.strip()` (no argument): removes leading and trailing
whitespace. -/
def pyStrip (s : String) : String :=
  ⟨((s.data.dropWhile Char.isWhitespace).reverse.dropWhile
      Char.isWhitespace).reverse⟩

/-- Python `s.rstrip(chars)`: removes trailing characters that occur in
`chars`. -/
def pyRstrip (s chars : String) : String :=
  ⟨(s.data.reverse.dropWhile (fun c => c ∈ chars.data)).reverse⟩

/-- The loop `while '  ' in s: s = s.replace('  ', ' ')` from
`Symbol.clean_string`.  Each iteration that fires strictly shortens the
string, so fuel `s.length` is always sufficient. -/
def collapseSpacesAux : Nat → String → String
  | 0, s => s
  | fuel + 1, s =>
    if pyContainsS s "  " then collapseSpacesAux fuel (pyReplace s "  " " ")
    else s

/-- The multi-space-collapsing loop of `Symbol.clean_string`. -/
def collapseSpaces (s : String) : String :=
  collapseSpacesAux s.data.length s

/-- Model of `Symbol.clean_string(cls, s)` (lines 21–30 of `symbols.py`), as a
function of the current contents of `cls.symbol_list`:

    s = s.strip()
    for symbol in cls.symbol_list:
        s = s.replace(f" {symbol} ", symbol)
        s = s.replace(f"{symbol} ", symbol)
        s = s.replace(f" {symbol}", symbol)
    while '  ' in s:
        s = s.replace('  ', ' ')
    return s
-/
def clean_string (symbol_list : List String) (s : String) : String :=
  let s0 := pyStrip s
  let s1 := symbol_list.foldl
    (fun acc symbol =>
      let a1 := pyReplace acc (" " ++ symbol ++ " ") symbol
      let a2 := pyReplace a1 (symbol ++ " ") symbol
      pyReplace a2 (" " ++ symbol) symbol)
    s0
  collapseSpaces s1

/-! ## Registration state

One field per Python list object reachable as some class's `symbol_list`.
`Constant`, `Variable` and `Operator` define no `symbol_list` of their own,
so attribute lookup on them finds the one list stored on `Symbol`: all four
classes share the `root` field.
-/

/-- The mutable `symbol_list` class attributes of `symbols.py`. -/
structure RegState where
  /-- List `Symbol.symbol_list`, shared by `Symbol`, `Constant`, `Variable`
      and `Operator` (none of them defines its own list). -/
  root : List String
  /-- List `SymbolGroup.symbol_list`. -/
  group : List String
  /-- List `Add.symbol_list`. -/
  add : List String
  /-- List `Subtract.symbol_list`. -/
  sub : List String
  /-- List `Multiply.symbol_list`. -/
  mul : List String
  /-- List `Divide.symbol_list`. -/
  div : List String
  /-- List `Modulus.symbol_list`. -/
  mod : List String
  /-- List `Power.symbol_list`. -/
  pow : List String
  /-- List `Sqrt.symbol_list`. -/
  sqrt : List String
  /-- List `Ceil.symbol_list`. -/
  ceil : List String
  /-- List `Floor.symbol_list`. -/
  floor : List String
  /-- List `Equal.symbol_list`. -/
  eq : List String
  /-- List `NotEqual.symbol_list`. -/
  ne : List String
deriving DecidableEq

/-- The class-level list literals of `symbols.py` at import time, before
any instance has been constructed. -/
def initState : RegState where
  root := []
  group := ["(", ")"]
  add := ["+", "plus"]
  sub := ["-", "minus"]
  mul := ["*", "×", "multiply", "times"]
  div := ["/", "÷", "divide"]
  mod := ["%", "mod"]
  pow := ["^", "**", "power"]
  sqrt := ["sqrt", "√"]
  ceil := ["ceil", "⌈", "⌉"]
  floor := ["floor", "⌊", "⌋"]
  eq := ["=", "equals", "is", "equal to"]
  ne := ["!=", "≠", "not equal to"]

/-- Model of `Symbol.__init__` (lines 10–14), acting on the list that `self`'s class
resolves as `self.symbol_list`:

    if self.symbol is None:
        raise ValueError("Symbol must have a defined symbol attribute.")
    if self.symbol not in self.symbol_list:
        self.symbol_list.append(self.symbol)
-/
def symbolInitList (symbol : Option String) (l : List String) :
    Except PyErr (List String) :=
  match symbol with
  | none => .error (.valueError "Symbol must have a defined symbol attribute.")
  | some t => .ok (if t ∈ l then l else l ++ [t])

/-- A fully constructed `Constant` instance (its instance attributes). -/
structure ConstObj where
  value : ℚ
  symbol : String
deriving DecidableEq

/-- A fully constructed `Variable` instance (its instance attributes). -/
structure VarObj where
  name : String
  base_name : String
  symbol : String
deriving DecidableEq

/-- Model of `Constant.__init__(self, value, symbol=None, symbol_list=None)`
(lines 34–45).  The first statement is `super().__init__()`; at that point
`self.symbol` is still the class attribute inherited from `Symbol`, which
is `None` (`Constant` never defines a class-level `symbol`, and the
instance attribute is only assigned later).  `Symbol.__init__` therefore
always raises, and everything after the `super()` call is unreachable.
It is nevertheless translated below, after the short-circuiting bind.
(`toString value` stands for Python's `str(value)`; the numeric value is
modelled as a rational here since this dead code never runs.) -/
def mkConstant (value : ℚ) (symbol : Option String)
    (symbol_list : Option (List String)) (s : RegState) :
    Except PyErr (ConstObj × RegState) := do
  -- super().__init__() with self.symbol = None: always raises.
  let root0 ← symbolInitList none s.root
  -- Unreachable continuation (kept for completeness):
  let sym := match symbol with
    | none => toString value
    | some t => t
  let root1 := if sym ∈ root0 then root0 else root0 ++ [sym]
  let root2 := match symbol_list with
    | none => root1
    | some extra => root1 ++ extra
  .ok ({ value := value, symbol := sym }, { s with root := root2 })

/-- Model of `Variable.__init__(self, name)` (lines 53–59):

    self.name = name
    self.base_name = name.rstrip('0123456789').rstrip("_")
    self.symbol = name
    self.symbol_list.append(name)      -- unconditional, shared root list
    super().__init__()                 -- symbol is a string, so no raise;
                                       -- name is already in the list, so
                                       -- the guarded append is a no-op
-/
def mkVariable (name : String) (s : RegState) : VarObj × RegState :=
  let root1 := s.root ++ [name]
  let root2 := if name ∈ root1 then root1 else root1 ++ [name]
  ({ name := name
     base_name := pyRstrip (pyRstrip name "0123456789") "_"
     symbol := name },
   { s with root := root2 })

/-! ## The class hierarchy and the derived registry (`ALL_SYMBOLS`) -/

/-- The classes defined in `symbols.py`. -/
inductive SymClass where
  | Symbol | Constant | Variable | Operator | SymbolGroup
  | Add | Subtract | Multiply | Divide | Modulus | Power
  | Sqrt | Ceil | Floor | Equal | NotEqual
deriving DecidableEq, Repr

/-- The class-level `symbol` attribute of each class at import time
(`ALL_SYMBOLS` is computed when the module is imported, before any
instance exists, so no instance attribute can shadow it).  `Constant`,
`Variable` and `Operator` inherit `Symbol.symbol`, which is `None`. -/
def classSymbol : SymClass → Option String
  | .Symbol => none
  | .Constant => none
  | .Variable => none
  | .Operator => none
  | .SymbolGroup => some "("
  | .Add => some "+"
  | .Subtract => some "-"
  | .Multiply => some "*"
  | .Divide => some "/"
  | .Modulus => some "%"
  | .Power => some "^"
  | .Sqrt => some "sqrt"
  | .Ceil => some "ceil"
  | .Floor => some "floor"
  | .Equal => some "="
  | .NotEqual => some "!="

/-- Python `cls.__subclasses__()`: the direct subclasses, in definition order. -/
def subclassesOf : SymClass → List SymClass
  | .Symbol => [.Constant, .Variable, .Operator, .SymbolGroup]
  | .Operator => [.Add, .Subtract, .Multiply, .Divide, .Modulus, .Power,
                  .Sqrt, .Ceil, .Floor, .Equal, .NotEqual]
  | _ => []

/-- Model of `get_subclasses(cls)` (lines 199–205):

    return cls.__subclasses__() + [sub for subclass in cls.__subclasses__()
                                   for sub in get_subclasses(subclass)
                                   if subclass != Symbol]

The `fuel` argument only forces termination of the recursion; the class
hierarchy has depth 2, so any fuel ≥ 3 yields the Python result. -/
def get_subclasses (fuel : Nat) (cls : SymClass) : List SymClass :=
  match fuel with
  | 0 => []
  | fuel + 1 =>
    subclassesOf cls ++
      ((subclassesOf cls).filter (fun subclass => subclass ≠ .Symbol)).flatMap
        (fun subclass => get_subclasses fuel subclass)

/-- Assignment `d[k] = v` on a Python dict modelled as an insertion-ordered
association list: overwrite in place if the key exists, else append. -/
def dictSet (d : List (String × SymClass)) (k : String) (v : SymClass) :
    List (String × SymClass) :=
  if d.any (fun p => p.1 = k) then
    d.map (fun p => if p.1 = k then (k, v) else p)
  else d ++ [(k, v)]

/-- Model of `ALL_SYMBOLS` (lines 208–213): the dict comprehension

    {cls.symbol: cls for cls in get_subclasses()
     if cls.symbol is not None and cls.symbol != ''
     and cls.symbol not in ['(', ')'] and cls.symbol not in [' ']}
-/
def ALL_SYMBOLS : List (String × SymClass) :=
  (get_subclasses 4 .Symbol).foldl
    (fun d cls =>
      match classSymbol cls with
      | none => d
      | some sym =>
        if sym ≠ "" ∧ sym ∉ ["(", ")"] ∧ sym ∉ [" "] then dictSet d sym cls
        else d)
    []

/-- The operator-, constant- and variable-producing concrete types
(everything except the abstract `Symbol` and `Operator` bases and the
grouping-only `SymbolGroup`). -/
def producingClasses : List SymClass :=
  [.Constant, .Variable, .Add, .Subtract, .Multiply, .Divide, .Modulus,
   .Power, .Sqrt, .Ceil, .Floor, .Equal, .NotEqual]

/-! ## Expression trees and evaluation

Python numbers are idealized as `ℝ`.  A call can also return `None`
(unbound variable) or a tuple (`Operator.__call__`, `Equal`, `NotEqual`),
so results are `Value`.  Each `Operator` instance stores `self.a : Symbol`
and `self.b`, which is either a `Symbol` or `None` (unary operators pass
`None` to `Operator.__init__`), hence `b : Option Expr`.
-/

/-- The concrete operator classes an expression node can have. -/
inductive OpKind where
  | Add | Subtract | Multiply | Divide | Modulus | Power
  | Sqrt | Ceil | Floor | Equal | NotEqual
deriving DecidableEq, Repr

/-- A fully constructed symbol-tree node: a `Constant` stores `self.value`,
a `Variable` stores `self.name`, an operator stores `self.a` and
`self.b` (the latter possibly Python `None`). -/
inductive Expr where
  | Constant (value : ℝ)
  | Variable (name : String)
  | Op (k : OpKind) (a : Expr) (b : Option Expr)

/-- A Python value produced by a call: a number, `None`, or a tuple. -/
inductive Value where
  | num (x : ℝ)
  | none
  | tuple (l : List Value)

/-- The keyword arguments passed to a call: variable name ↦ number. -/
def Bindings : Type := String → Option ℝ

/-- The empty keyword-argument mapping. -/
def emptyB : Bindings := fun _ => Option.none

/-- Python `a + b` on values: numbers add, tuples concatenate, anything
else (in particular any operand that is `None`) raises `TypeError`. -/
def vadd : Value → Value → Except PyErr Value
  | .num x, .num y => .ok (.num (x + y))
  | .tuple x, .tuple y => .ok (.tuple (x ++ y))
  | _, _ => .error .typeError

/-- Python `a - b` on values. -/
def vsub : Value → Value → Except PyErr Value
  | .num x, .num y => .ok (.num (x - y))
  | _, _ => .error .typeError

/-- Python `a * b` on values.  (Sequence replication `tuple * int` is not
modelled; no claim concerns it.) -/
def vmul : Value → Value → Except PyErr Value
  | .num x, .num y => .ok (.num (x * y))
  | _, _ => .error .typeError

/-- Python `a ** b` on values, idealized as the real power `x ^ y`
(`Real.rpow`). -/
noncomputable def vpow : Value → Value → Except PyErr Value
  | .num x, .num y => .ok (.num (x ^ y))
  | _, _ => .error .typeError

/-- Python `a % b` on values.  The `%` operator itself raises the native
`ZeroDivisionError` when the right operand is zero (this check happens in
the Python runtime, not in `Modulus.__call__`, which has no guard of its
own); otherwise `a % b = a - b * floor(a / b)`. -/
noncomputable def vmod : Value → Value → Except PyErr Value
  | .num x, .num y =>
    if y = 0 then .error .zeroDivisionError
    else .ok (.num (x - y * (⌊x / y⌋ : ℤ)))
  | _, _ => .error .typeError

/-- Python `math.ceil(v)`: defined on numbers, `TypeError` otherwise. -/
noncomputable def vceil : Value → Except PyErr Value
  | .num x => .ok (.num ((⌈x⌉ : ℤ) : ℝ))
  | _ => .error .typeError

/-- Python `math.floor(v)`: defined on numbers, `TypeError` otherwise. -/
noncomputable def vfloor : Value → Except PyErr Value
  | .num x => .ok (.num ((⌊x⌋ : ℤ) : ℝ))
  | _ => .error .typeError

/-- Evaluation: `__call__(self, *args, **kwargs)` of each class, by
recursion over the tree.  Every operator's `__call__` evaluates `self.a`
first; binary bodies then evaluate `self.b` (evaluating `self.b(...)`
when `self.b` is `None` raises the not-callable `TypeError`).
`Sqrt`, `Ceil` and `Floor` only ever evaluate `self.a`. -/
noncomputable def eval : Expr → Bindings → Except PyErr Value
  -- Constant.__call__: return self.value
  | .Constant v, _ => .ok (.num v)
  -- Variable.__call__: return kwargs.get(self.name, None)
  | .Variable name, bnd =>
    .ok (match bnd name with
         | some v => .num v
         | Option.none => .none)
  -- Add.__call__: a, b = super().__call__(...); return a + b
  | .Op .Add a b, bnd => do
    let av ← eval a bnd
    let bv ← match b with
             | some be => eval be bnd
             | Option.none => .error .notCallable
    vadd av bv
  | .Op .Subtract a b, bnd => do
    let av ← eval a bnd
    let bv ← match b with
             | some be => eval be bnd
             | Option.none => .error .notCallable
    vsub av bv
  | .Op .Multiply a b, bnd => do
    let av ← eval a bnd
    let bv ← match b with
             | some be => eval be bnd
             | Option.none => .error .notCallable
    vmul av bv
  -- Divide.__call__: if b == 0: raise ValueError(...); return a / b
  | .Op .Divide a b, bnd => do
    let av ← eval a bnd
    let bv ← match b with
             | some be => eval be bnd
             | Option.none => .error .notCallable
    match bv with
    | .num y =>
      if y = 0 then .error (.valueError "Division by zero is not allowed.")
      else
        match av with
        | .num x => .ok (.num (x / y))
        | _ => .error .typeError
    | _ =>
      -- b == 0 is False for None and tuples; a / b then raises TypeError.
      .error .typeError
  -- Modulus.__call__: return a % b (no zero check of its own)
  | .Op .Modulus a b, bnd => do
    let av ← eval a bnd
    let bv ← match b with
             | some be => eval be bnd
             | Option.none => .error .notCallable
    vmod av bv
  | .Op .Power a b, bnd => do
    let av ← eval a bnd
    let bv ← match b with
             | some be => eval be bnd
             | Option.none => .error .notCallable
    vpow av bv
  -- Sqrt.__call__: a_val = self.a(...); if a_val < 0: raise ValueError(...);
  -- return a_val ** 0.5   (self.b is never touched)
  | .Op .Sqrt a _, bnd => do
    let av ← eval a bnd
    match av with
    | .num x =>
      if x < 0 then
        .error (.valueError "Square root of negative number is not allowed.")
      else .ok (.num (x ^ ((1 : ℝ) / 2)))
    | _ =>
      -- None < 0 / tuple < 0 raise TypeError.
      .error .typeError
  -- Ceil.__call__: return math.ceil(self.a(...))   (self.b never touched)
  | .Op .Ceil a _, bnd => do
    let av ← eval a bnd
    vceil av
  -- Floor.__call__: return math.floor(self.a(...)) (self.b never touched)
  | .Op .Floor a _, bnd => do
    let av ← eval a bnd
    vfloor av
  -- Equal.__call__ / NotEqual.__call__: return (self.a(...), self.b(...))
  | .Op .Equal a b, bnd => do
    let av ← eval a bnd
    let bv ← match b with
             | some be => eval be bnd
             | Option.none => .error .notCallable
    .ok (.tuple [av, bv])
  | .Op .NotEqual a b, bnd => do
    let av ← eval a bnd
    let bv ← match b with
             | some be => eval be bnd
             | Option.none => .error .notCallable
    .ok (.tuple [av, bv])

/-- Reduction of `Except` bind on a success, used to unfold `eval`. -/
@[simp] theorem except_bind_ok {ε α β : Type} (a : α) (f : α → Except ε β) :
    (Except.ok a >>= f) = f a := rfl

/-- Reduction of `Except` bind on an error, used to unfold `eval`. -/
@[simp] theorem except_bind_err {ε α β : Type} (e : ε) (f : α → Except ε β) :
    ((Except.error e : Except ε α) >>= f) = Except.error e := rfl

/-! ## Operator construction

`Operator.__init__(self, a, b)` runs `super().__init__()` (registration
against the class's own `symbol_list`; every concrete operator class has a
string `symbol`, so it never raises) and then stores `self.a = a`,
`self.b = b`.  `Sqrt.__init__(self, a, b=None)` ignores its `b` argument
and calls `Operator.__init__(self, a, None)`; `Ceil` and `Floor` take only
`a` and do the same. -/

/-- Constructor `Add(a, b)`. -/
def mkAdd (a b : Expr) (s : RegState) : Expr × RegState :=
  (.Op .Add a (some b),
   { s with add := if "+" ∈ s.add then s.add else s.add ++ ["+"] })

/-- Constructor `Subtract(a, b)`. -/
def mkSubtract (a b : Expr) (s : RegState) : Expr × RegState :=
  (.Op .Subtract a (some b),
   { s with sub := if "-" ∈ s.sub then s.sub else s.sub ++ ["-"] })

/-- Constructor `Multiply(a, b)`. -/
def mkMultiply (a b : Expr) (s : RegState) : Expr × RegState :=
  (.Op .Multiply a (some b),
   { s with mul := if "*" ∈ s.mul then s.mul else s.mul ++ ["*"] })

/-- Constructor `Divide(a, b)`. -/
def mkDivide (a b : Expr) (s : RegState) : Expr × RegState :=
  (.Op .Divide a (some b),
   { s with div := if "/" ∈ s.div then s.div else s.div ++ ["/"] })

/-- Constructor `Modulus(a, b)`. -/
def mkModulus (a b : Expr) (s : RegState) : Expr × RegState :=
  (.Op .Modulus a (some b),
   { s with mod := if "%" ∈ s.mod then s.mod else s.mod ++ ["%"] })

/-- Constructor `Power(a, b)`. -/
def mkPower (a b : Expr) (s : RegState) : Expr × RegState :=
  (.Op .Power a (some b),
   { s with pow := if "^" ∈ s.pow then s.pow else s.pow ++ ["^"] })

/-- Constructor `Sqrt(a, b=None)`: the `b` argument is ignored, `self.b = None`. -/
def mkSqrt (a : Expr) (_b : Option Expr) (s : RegState) : Expr × RegState :=
  (.Op .Sqrt a Option.none,
   { s with sqrt := if "sqrt" ∈ s.sqrt then s.sqrt else s.sqrt ++ ["sqrt"] })

/-- Constructor `Ceil(a)`; `self.b = None`. -/
def mkCeil (a : Expr) (s : RegState) : Expr × RegState :=
  (.Op .Ceil a Option.none,
   { s with ceil := if "ceil" ∈ s.ceil then s.ceil else s.ceil ++ ["ceil"] })

/-- Constructor `Floor(a)`; `self.b = None`. -/
def mkFloor (a : Expr) (s : RegState) : Expr × RegState :=
  (.Op .Floor a Option.none,
   { s with floor :=
       if "floor" ∈ s.floor then s.floor else s.floor ++ ["floor"] })

/-- Constructor `Equal(a, b)`. -/
def mkEqual (a b : Expr) (s : RegState) : Expr × RegState :=
  (.Op .Equal a (some b),
   { s with eq := if "=" ∈ s.eq then s.eq else s.eq ++ ["="] })

/-- Constructor `NotEqual(a, b)`. -/
def mkNotEqual (a b : Expr) (s : RegState) : Expr × RegState :=
  (.Op .NotEqual a (some b),
   { s with ne := if "!=" ∈ s.ne then s.ne else s.ne ++ ["!="] })

/-- The trees producible by the constructors: every binary operator node
carries `some` second operand and every unary node (`Sqrt`, `Ceil`,
`Floor`) carries `none` — exactly the shapes `Add(...)...NotEqual(...)`
can build. -/
def constructedB : Expr → Bool
  | .Constant _ => true
  | .Variable _ => true
  | .Op .Sqrt a Option.none => constructedB a
  | .Op .Ceil a Option.none => constructedB a
  | .Op .Floor a Option.none => constructedB a
  | .Op .Add a (some b) => constructedB a && constructedB b
  | .Op .Subtract a (some b) => constructedB a && constructedB b
  | .Op .Multiply a (some b) => constructedB a && constructedB b
  | .Op .Divide a (some b) => constructedB a && constructedB b
  | .Op .Modulus a (some b) => constructedB a && constructedB b
  | .Op .Power a (some b) => constructedB a && constructedB b
  | .Op .Equal a (some b) => constructedB a && constructedB b
  | .Op .NotEqual a (some b) => constructedB a && constructedB b
  | .Op _ _ _ => false

/-! ## Claim theorems -/

/-- C1.  The claim says `Constant(2)` succeeds with token `"2"` and that
`Add(Constant(2), Constant(3)).evaluate({})` returns 5.  On the code this
is false: `Constant.__init__` invokes `super().__init__()` *before*
assigning `self.symbol`, and `Constant` has no class-level `symbol`, so
`self.symbol` is still the `None` inherited from `Symbol` and
`Symbol.__init__` raises `ValueError` unconditionally — every `Constant`
construction fails, whatever arguments are supplied (the token-defaulting
and registration code on lines 36–45 is unreachable, though it implements
exactly the claimed behaviour, as does `Constant.__call__`). -/
theorem constant_construction_always_raises
    (value : ℚ) (symbol : Option String) (symbol_list : Option (List String))
    (s : RegState) :
    mkConstant value symbol symbol_list s =
      .error (.valueError "Symbol must have a defined symbol attribute.") := by
  simp [mkConstant, symbolInitList]

/-- C2, counterexample.  Constructing two `Variable` instances with the
same name `"x"` leaves `"x"` twice in the (shared) `Symbol.symbol_list`:
`Variable.__init__` appends unconditionally (line 58) before the guarded
registration of `Symbol.__init__` runs, so the claim's "repeated
construction … never produces duplicate entries" is false. -/
theorem variable_registration_duplicate :
    ((mkVariable "x" ((mkVariable "x" initState).2)).2).root = ["x", "x"]
    ∧ ((mkVariable "x" ((mkVariable "x" initState).2)).2).root.count "x" = 2 := by
  decide

/-- C2, amended.  Construction with an undefined token fails with the
configuration `ValueError`; an operator construction such as `Add(a, b)`
registers the class token into the class's own alias list only when it is
absent and changes nothing when it is present; but `Variable` construction
unconditionally appends its name to the alias list it shares with
`Symbol`, `Constant` and `Operator` (appending exactly once per
construction, the guarded registration being a no-op afterwards), so
repeated construction with one name duplicates entries in that shared
list. -/
theorem registration_behavior :
    (∀ l : List String, symbolInitList Option.none l =
      .error (.valueError "Symbol must have a defined symbol attribute."))
    ∧ (∀ (a b : Expr) (s : RegState), "+" ∈ s.add → (mkAdd a b s).2 = s)
    ∧ (∀ (a b : Expr) (s : RegState), "+" ∉ s.add →
        (mkAdd a b s).2 = { s with add := s.add ++ ["+"] })
    ∧ (∀ (name : String) (s : RegState),
        (mkVariable name s).2 = { s with root := s.root ++ [name] }) := by
  refine ⟨fun l => rfl, fun a b s h => ?_, fun a b s h => ?_, fun name s => ?_⟩
  · simp [mkAdd, h]
  · simp [mkAdd, h]
  · simp [mkVariable]

/-- C2, witness for the amended theorem: the configuration failure, the
no-op re-registration of `"+"` on `Add` (already present in
`Add.symbol_list`), and the unconditional append of `"x"` by a `Variable`
construction, all at concrete inputs. -/
theorem registration_behavior_witness :
    symbolInitList Option.none [] =
      .error (.valueError "Symbol must have a defined symbol attribute.")
    ∧ (mkAdd (.Variable "x") (.Variable "y") initState).2 = initState
    ∧ (mkVariable "x" initState).2 = { initState with root := ["x"] } :=
  ⟨registration_behavior.1 [],
   registration_behavior.2.1 _ _ initState (by decide),
   registration_behavior.2.2.2 "x" initState⟩

/-- C3, counterexample.  With `Add`'s alias set `["+", "plus"]`,
`clean_string("2  +   3")` does not return `"2+3"`: the `" + "` pass
consumes the two spaces around `+` but re-exposes an adjacent space that
the following `"+ "`/`" +"` passes only partially remove (string
replacement never rescans its own output), leaving `"2+ 3"`. -/
theorem clean_string_multispace_not_collapsed :
    (clean_string ["+", "plus"] "2  +   3" == "2+3") = false := by
  decide

/-- C3, amended.  `clean_string(" 2 + 3 ")` with alias set `["+", "plus"]`
yields `"2+3"`, but `clean_string("2  +   3")` yields `"2+ 3"` (one
space survives between `+` and `3`); in both results every run of
multiple spaces has been collapsed (no double space remains). -/
theorem clean_string_examples :
    clean_string ["+", "plus"] " 2 + 3 " = "2+3"
    ∧ clean_string ["+", "plus"] "2  +   3" = "2+ 3"
    ∧ pyContainsS (clean_string ["+", "plus"] " 2 + 3 ") "  " = false
    ∧ pyContainsS (clean_string ["+", "plus"] "2  +   3") "  " = false := by
  decide

/-- C4.  The derived registry `ALL_SYMBOLS` has exactly one entry per
distinct canonical token across the constant-, variable- and
operator-producing types (its key list is precisely the deduplicated list
of those types' class-level tokens — `Constant` and `Variable` contribute
none, theirs being `None` at import time — and contains no duplicates),
and has no entry for `"("`, `")"` or `""`. -/
theorem all_symbols_registry :
    ALL_SYMBOLS.map Prod.fst = (producingClasses.filterMap classSymbol).dedup
    ∧ (ALL_SYMBOLS.map Prod.fst).Nodup
    ∧ (ALL_SYMBOLS.map Prod.fst).contains "(" = false
    ∧ (ALL_SYMBOLS.map Prod.fst).contains ")" = false
    ∧ (ALL_SYMBOLS.map Prod.fst).contains "" = false := by
  decide

/-- C9.  `Variable("x1").base_name == "x"`, `Variable("x_2").base_name ==
"x"` and `Variable("x").base_name == "x"`: the base name strips trailing
decimal digits, then trailing underscores. -/
theorem variable_base_name :
    (mkVariable "x1" initState).1.base_name = "x"
    ∧ (mkVariable "x_2" initState).1.base_name = "x"
    ∧ (mkVariable "x" initState).1.base_name = "x" := by
  decide

/-- C5.  For numeric operand values `x` and `y`: `Divide` evaluates to
`x / y` when `y ≠ 0`, and fails with the division-by-zero `ValueError`
(returning no value) when `y = 0`. -/
theorem divide_eval (a b : Expr) (bnd : Bindings) (x y : ℝ)
    (ha : eval a bnd = .ok (.num x)) (hb : eval b bnd = .ok (.num y)) :
    (y ≠ 0 → eval (.Op .Divide a (some b)) bnd = .ok (.num (x / y)))
    ∧ (y = 0 → eval (.Op .Divide a (some b)) bnd =
        .error (.valueError "Division by zero is not allowed.")) := by
  constructor
  · intro hy
    simp [eval, ha, hb, hy]
  · intro hy
    simp [eval, ha, hb, hy]

/-- C5, witness: `Divide(Constant(8), Constant(1))` evaluates to `8 / 1`
and `Divide(Constant(8), Constant(0))` fails with the division-by-zero
error.  (The constants are written as pre-built tree nodes because
`Constant(...)` itself cannot be constructed, see C1.) -/
theorem divide_eval_witness :
    eval (.Op .Divide (.Constant 8) (some (.Constant 1))) emptyB =
      .ok (.num (8 / 1))
    ∧ eval (.Op .Divide (.Constant 8) (some (.Constant 0))) emptyB =
      .error (.valueError "Division by zero is not allowed.") :=
  ⟨(divide_eval (.Constant 8) (.Constant 1) emptyB 8 1 rfl rfl).1 one_ne_zero,
   (divide_eval (.Constant 8) (.Constant 0) emptyB 8 0 rfl rfl).2 rfl⟩

/-- C6.  For a numeric operand value `x`: `Sqrt` evaluates to `√x`
(`x ** 0.5` equals `Real.sqrt x` when `x ≥ 0`) and fails with the
domain `ValueError` (returning no value) when `x < 0`. -/
theorem sqrt_eval (a : Expr) (bnd : Bindings) (x : ℝ)
    (ha : eval a bnd = .ok (.num x)) :
    (0 ≤ x → eval (.Op .Sqrt a Option.none) bnd = .ok (.num (Real.sqrt x)))
    ∧ (x < 0 → eval (.Op .Sqrt a Option.none) bnd =
        .error (.valueError "Square root of negative number is not allowed.")) := by
  constructor
  · intro hx
    simp [eval, ha, not_lt.mpr hx, Real.sqrt_eq_rpow]
  · intro hx
    simp [eval, ha, hx]

/-- C6, witness: `Sqrt(Constant(0))` evaluates to `√0` and
`Sqrt(Constant(-1))` fails with the domain error. -/
theorem sqrt_eval_witness :
    eval (.Op .Sqrt (.Constant 0) Option.none) emptyB = .ok (.num (Real.sqrt 0))
    ∧ eval (.Op .Sqrt (.Constant (-1)) Option.none) emptyB =
      .error (.valueError "Square root of negative number is not allowed.") :=
  ⟨(sqrt_eval (.Constant 0) emptyB 0 rfl).1 (le_refl 0),
   (sqrt_eval (.Constant (-1)) emptyB (-1) rfl).2 neg_one_lt_zero⟩

/-- C8.  Evaluating a `Variable` whose name is bound returns the bound
value, and evaluating a `Variable` whose name is absent from the bindings
does not fail: it returns the `None` sentinel (`kwargs.get(name, None)`). -/
theorem variable_lookup_eval (name : String) (bnd : Bindings) :
    (∀ v : ℝ, bnd name = some v → eval (.Variable name) bnd = .ok (.num v))
    ∧ (bnd name = Option.none → eval (.Variable name) bnd = .ok Value.none) := by
  constructor
  · intro v hv
    simp [eval, hv]
  · intro hv
    simp [eval, hv]

/-- The binding set `{x: 5}` of the specification's example. -/
def bindX5 : Bindings := fun n => if n = "x" then some 5 else Option.none

/-- C8, witness: `Variable("x")(x=5)` returns 5 and `Variable("y")(x=5)`
returns the `None` sentinel. -/
theorem variable_lookup_eval_witness :
    eval (.Variable "x") bindX5 = .ok (.num 5)
    ∧ eval (.Variable "y") bindX5 = .ok Value.none :=
  ⟨(variable_lookup_eval "x" bindX5).1 5 (by simp [bindX5]),
   (variable_lookup_eval "y" bindX5).2 (by simp [bindX5])⟩

/-- C10.  When the right operand of `Modulus` evaluates to 0, evaluation
fails with the native `ZeroDivisionError` of the `%` operator
(`Modulus.__call__` has no guard of its own), which is a different error
from the explicit division-by-zero `ValueError` that `Divide` raises on
the same operands. -/
theorem modulus_zero_native_error (a b : Expr) (bnd : Bindings) (x : ℝ)
    (ha : eval a bnd = .ok (.num x)) (hb : eval b bnd = .ok (.num 0)) :
    eval (.Op .Modulus a (some b)) bnd = .error .zeroDivisionError
    ∧ eval (.Op .Divide a (some b)) bnd =
        .error (.valueError "Division by zero is not allowed.")
    ∧ PyErr.zeroDivisionError ≠
        PyErr.valueError "Division by zero is not allowed." := by
  refine ⟨?_, ?_, by decide⟩
  · simp [eval, ha, hb, vmod]
  · simp [eval, ha, hb]

/-- C10, witness: `Modulus(Constant(7), Constant(0))` fails with the
native `ZeroDivisionError` while `Divide(Constant(7), Constant(0))` fails
with the division-by-zero `ValueError`. -/
theorem modulus_zero_native_error_witness :
    eval (.Op .Modulus (.Constant 7) (some (.Constant 0))) emptyB =
      .error .zeroDivisionError
    ∧ eval (.Op .Divide (.Constant 7) (some (.Constant 0))) emptyB =
      .error (.valueError "Division by zero is not allowed.") :=
  ⟨(modulus_zero_native_error (.Constant 7) (.Constant 0) emptyB 7 rfl rfl).1,
   (modulus_zero_native_error (.Constant 7) (.Constant 0) emptyB 7 rfl rfl).2.1⟩

/-! ## C7: evaluation never calls an absent operand

Attempting to evaluate an absent (`None`) operand is exactly what produces
the `notCallable` error in `eval`, so "evaluation never attempts to
evaluate an absent operand" is formalized as: on every tree the
constructors can build, `eval` never returns `PyErr.notCallable`. -/

/-- Predicate on call results: true unless the result is the
calling-`None` `TypeError`. -/
def callOk {α : Type} : Except PyErr α → Bool
  | .error .notCallable => false
  | _ => true

/-- The `callOk` predicate holds on any success. -/
@[simp] theorem callOk_ok {α : Type} (a : α) :
    callOk (.ok a : Except PyErr α) = true := rfl

/-- The `callOk` predicate holds on a `ValueError`. -/
@[simp] theorem callOk_valueError {α : Type} (msg : String) :
    callOk (.error (.valueError msg) : Except PyErr α) = true := rfl

/-- The `callOk` predicate holds on a `TypeError` about operand types. -/
@[simp] theorem callOk_typeError {α : Type} :
    callOk (.error .typeError : Except PyErr α) = true := rfl

/-- The `callOk` predicate holds on a `ZeroDivisionError`. -/
@[simp] theorem callOk_zeroDivisionError {α : Type} :
    callOk (.error .zeroDivisionError : Except PyErr α) = true := rfl

/-- Binding two computations that avoid `notCallable` avoids it. -/
theorem callOk_bind {α β : Type} {ma : Except PyErr α}
    {f : α → Except PyErr β} (h1 : callOk ma = true)
    (h2 : ∀ v, callOk (f v) = true) : callOk (ma >>= f) = true := by
  cases ma with
  | ok v => simpa using h2 v
  | error e => cases e <;> simp_all [callOk]

/-- Python `+` never raises the calling-`None` error. -/
theorem callOk_vadd (v w : Value) : callOk (vadd v w) = true := by
  cases v <;> cases w <;> simp [vadd]

/-- Python `-` never raises the calling-`None` error. -/
theorem callOk_vsub (v w : Value) : callOk (vsub v w) = true := by
  cases v <;> cases w <;> simp [vsub]

/-- Python `*` never raises the calling-`None` error. -/
theorem callOk_vmul (v w : Value) : callOk (vmul v w) = true := by
  cases v <;> cases w <;> simp [vmul]

/-- Python `**` never raises the calling-`None` error. -/
theorem callOk_vpow (v w : Value) : callOk (vpow v w) = true := by
  cases v <;> cases w <;> simp [vpow]

/-- Python `%` never raises the calling-`None` error. -/
theorem callOk_vmod (v w : Value) : callOk (vmod v w) = true := by
  cases v <;> cases w <;> try rfl
  simp only [vmod]
  split <;> simp

/-- Python `math.ceil` never raises the calling-`None` error. -/
theorem callOk_vceil (v : Value) : callOk (vceil v) = true := by
  cases v <;> simp [vceil]

/-- Python `math.floor` never raises the calling-`None` error. -/
theorem callOk_vfloor (v : Value) : callOk (vfloor v) = true := by
  cases v <;> simp [vfloor]

/-- Size-bounded induction for the no-`notCallable` property on
constructor-built trees. -/
theorem callOk_eval_aux : ∀ (n : Nat) (e : Expr), sizeOf e ≤ n →
    constructedB e = true → ∀ bnd : Bindings, callOk (eval e bnd) = true := by
  intro n
  induction n with
  | zero =>
    intro e hs
    exfalso
    cases e <;> simp at hs
  | succ n ih =>
    intro e hs hc bnd
    cases e with
    | Constant v => rfl
    | Variable name =>
      simp only [eval]
      cases bnd name <;> rfl
    | Op k a b =>
      have hsa : sizeOf a ≤ n := by
        cases b <;> simp at hs <;> omega
      cases k with
      | Sqrt =>
        cases b with
        | some be => simp [constructedB] at hc
        | none =>
          have hca : constructedB a = true := by simpa [constructedB] using hc
          simp only [eval]
          apply callOk_bind (ih a hsa hca bnd)
          intro av
          cases av with
          | num x => by_cases hx : x < 0 <;> simp [hx]
          | none => rfl
          | tuple l => rfl
      | Ceil =>
        cases b with
        | some be => simp [constructedB] at hc
        | none =>
          have hca : constructedB a = true := by simpa [constructedB] using hc
          simp only [eval]
          exact callOk_bind (ih a hsa hca bnd) fun av => callOk_vceil av
      | Floor =>
        cases b with
        | some be => simp [constructedB] at hc
        | none =>
          have hca : constructedB a = true := by simpa [constructedB] using hc
          simp only [eval]
          exact callOk_bind (ih a hsa hca bnd) fun av => callOk_vfloor av
      | Add =>
        cases b with
        | none => simp [constructedB] at hc
        | some be =>
          have hsb : sizeOf be ≤ n := by simp at hs; omega
          simp only [constructedB, Bool.and_eq_true] at hc
          simp only [eval]
          exact callOk_bind (ih a hsa hc.1 bnd) fun av =>
            callOk_bind (ih be hsb hc.2 bnd) fun bv => callOk_vadd av bv
      | Subtract =>
        cases b with
        | none => simp [constructedB] at hc
        | some be =>
          have hsb : sizeOf be ≤ n := by simp at hs; omega
          simp only [constructedB, Bool.and_eq_true] at hc
          simp only [eval]
          exact callOk_bind (ih a hsa hc.1 bnd) fun av =>
            callOk_bind (ih be hsb hc.2 bnd) fun bv => callOk_vsub av bv
      | Multiply =>
        cases b with
        | none => simp [constructedB] at hc
        | some be =>
          have hsb : sizeOf be ≤ n := by simp at hs; omega
          simp only [constructedB, Bool.and_eq_true] at hc
          simp only [eval]
          exact callOk_bind (ih a hsa hc.1 bnd) fun av =>
            callOk_bind (ih be hsb hc.2 bnd) fun bv => callOk_vmul av bv
      | Divide =>
        cases b with
        | none => simp [constructedB] at hc
        | some be =>
          have hsb : sizeOf be ≤ n := by simp at hs; omega
          simp only [constructedB, Bool.and_eq_true] at hc
          simp only [eval]
          apply callOk_bind (ih a hsa hc.1 bnd)
          intro av
          apply callOk_bind (ih be hsb hc.2 bnd)
          intro bv
          cases bv with
          | num y => by_cases hy : y = 0 <;> cases av <;> simp [hy]
          | none => rfl
          | tuple l => rfl
      | Modulus =>
        cases b with
        | none => simp [constructedB] at hc
        | some be =>
          have hsb : sizeOf be ≤ n := by simp at hs; omega
          simp only [constructedB, Bool.and_eq_true] at hc
          simp only [eval]
          exact callOk_bind (ih a hsa hc.1 bnd) fun av =>
            callOk_bind (ih be hsb hc.2 bnd) fun bv => callOk_vmod av bv
      | Power =>
        cases b with
        | none => simp [constructedB] at hc
        | some be =>
          have hsb : sizeOf be ≤ n := by simp at hs; omega
          simp only [constructedB, Bool.and_eq_true] at hc
          simp only [eval]
          exact callOk_bind (ih a hsa hc.1 bnd) fun av =>
            callOk_bind (ih be hsb hc.2 bnd) fun bv => callOk_vpow av bv
      | Equal =>
        cases b with
        | none => simp [constructedB] at hc
        | some be =>
          have hsb : sizeOf be ≤ n := by simp at hs; omega
          simp only [constructedB, Bool.and_eq_true] at hc
          simp only [eval]
          exact callOk_bind (ih a hsa hc.1 bnd) fun av =>
            callOk_bind (ih be hsb hc.2 bnd) fun bv => rfl
      | NotEqual =>
        cases b with
        | none => simp [constructedB] at hc
        | some be =>
          have hsb : sizeOf be ≤ n := by simp at hs; omega
          simp only [constructedB, Bool.and_eq_true] at hc
          simp only [eval]
          exact callOk_bind (ih a hsa hc.1 bnd) fun av =>
            callOk_bind (ih be hsb hc.2 bnd) fun bv => rfl

/-- C7.  Evaluating a unary node (`Sqrt`, `Ceil`, `Floor`) depends only on
the first operand — the second operand slot is never consulted at all —
and on every tree the constructors can build (where unary nodes store an
absent second operand), evaluation never attempts to call the absent
operand: the calling-`None` `TypeError` can never be the result. -/
theorem unary_absent_operand_safe :
    (∀ (a : Expr) (b b' : Option Expr) (bnd : Bindings),
        eval (.Op .Sqrt a b) bnd = eval (.Op .Sqrt a b') bnd
        ∧ eval (.Op .Ceil a b) bnd = eval (.Op .Ceil a b') bnd
        ∧ eval (.Op .Floor a b) bnd = eval (.Op .Floor a b') bnd)
    ∧ (∀ e : Expr, constructedB e = true → ∀ bnd : Bindings,
        callOk (eval e bnd) = true) := by
  constructor
  · intro a b b' bnd
    exact ⟨rfl, rfl, rfl⟩
  · intro e hc bnd
    exact callOk_eval_aux (sizeOf e) e le_rfl hc bnd

/-- C7, witness: a `Sqrt` node evaluates identically whatever sits in its
second operand slot, and evaluating the constructor-built
`Sqrt(Variable("x"))` (with its absent second operand) under the bindings
`{x: 5}` never produces the calling-`None` error. -/
theorem unary_absent_operand_safe_witness :
    eval (.Op .Sqrt (.Variable "x") Option.none) bindX5 =
      eval (.Op .Sqrt (.Variable "x") (some (.Variable "y"))) bindX5
    ∧ callOk (eval (.Op .Sqrt (.Variable "x") Option.none) bindX5) = true :=
  ⟨(unary_absent_operand_safe.1 (.Variable "x") Option.none
      (some (.Variable "y")) bindX5).1,
   unary_absent_operand_safe.2 (.Op .Sqrt (.Variable "x") Option.none)
      rfl bindX5⟩

end Symbols
